import Mathlib

/-!
Verification development for a single-file Streamlit chatbot front-end
(`app.py`).  The program keeps configuration, a transcript of messages and
an opaque remote chat session in `st.session_state`, rebuilds the session
when a tracked configuration field changes, and runs a streaming message
exchange loop on each user submission.

The embedding below is a shallow translation of the script:

* `Message`, `AppState` — the session-state data (`st.session_state.api_key`,
  `model_name`, `system_prompt`, `messages`, `chat_session`).  A remote
  session handle is opaque; we model it as a `Nat`.
* `SessionConfig` — the arguments assembled for `initialize_chat_session`
  (lines 116-134).  The remote creation itself is external I/O, so the step
  functions take an oracle `initFn : SessionConfig → Option Nat`
  (`none` models the `except` branch of `initialize_chat_session`
  returning `None`, lines 34-36).
* `reinit` — the module-level re-initialization block, lines 107-144.
* `clearChatHistory` — the sidebar button handler, lines 84-87.
* `chatTurn` — the chat-input handler, lines 153-198, with the streamed
  remote reply modelled by `RemoteOutcome`: a finite list of chunks that
  either ends normally or ends by raising one of the three caught
  exception classes.  Side effects (`st.error`, `st.warning`,
  `message_placeholder.markdown`, calls to `send_message`) are recorded in
  the returned `HandlerOutput`.
-/

/-- One transcript entry, `{"role": ..., "content": ...}` (line 103, 160, 188). -/
structure Message where
  role : String
  content : String
deriving DecidableEq, Repr

/-- The kind of exception raised by the remote call: the three `except`
clauses at lines 190, 193, 196. -/
inductive GenErrorKind
  | blockedPrompt
  | stopCandidate
  | other
deriving DecidableEq, Repr

/-- An exception raised by the remote call, with its description string
(the `{e}` interpolated into the error and placeholder messages). -/
structure GenError where
  kind : GenErrorKind
  msg : String
deriving DecidableEq, Repr

/-- One streamed chunk (line 173): either it has a `text` attribute, or it
is malformed and only has a textual representation (line 182). -/
inductive Chunk
  | text (s : String)
  | malformed (r : String)
deriving DecidableEq, Repr

/-- The behaviour of one remote `send_message(..., stream=True)` call:
the chunks the iterator yields in order, and optionally an exception
raised when the iterator is advanced past the last listed chunk (or by
`send_message` itself when `chunks = []`). -/
structure RemoteOutcome where
  chunks : List Chunk
  raisedAtEnd : Option GenError
deriving DecidableEq, Repr

/-- The persistent `st.session_state` fields of the script.  The remote
chat object is opaque; `chat_session = none` is Python `None`. -/
structure AppState where
  api_key : String
  model_name : String
  system_prompt : String
  messages : List Message
  chat_session : Option Nat
deriving DecidableEq, Repr

/-- The sidebar widget values read on a given script run: api key text
input, selected model identifier, system prompt text area, and the two
advanced sliders (lines 49-80).  Temperature is a float slider; we model
it as a rational. -/
structure Inputs where
  api_key_input : String
  model_name_input : String
  system_prompt_input : String
  temperature : ℚ
  max_tokens : Nat
deriving DecidableEq, Repr

/-- The argument bundle passed to `initialize_chat_session` (lines
128-134): api key, model name, optional system instruction and the
generation config.  The constant safety-settings list (lines 118-123)
carries no information and is omitted. -/
structure SessionConfig where
  api_key : String
  model_name : String
  system_instruction : Option String
  temperature : ℚ
  max_output_tokens : Nat
deriving DecidableEq, Repr

/-- Python `str.strip` on the system prompt (line 131), modelled as
`String.trim`. -/
def stripped (s : String) : String := s.trim

/-- The `system_instruction` argument at line 131:
`st.session_state.system_prompt if st.session_state.system_prompt.strip() else None`. -/
def systemInstructionArg (system_prompt : String) : Option String :=
  if stripped system_prompt = "" then none else some system_prompt

/-- Whether one of the three tracked configuration fields compared at
lines 108-110 differs from the stored value. -/
def trackedChanged (s : AppState) (inp : Inputs) : Bool :=
  decide (s.api_key ≠ inp.api_key_input) ||
  decide (s.model_name ≠ inp.model_name_input) ||
  decide (s.system_prompt ≠ inp.system_prompt_input)

/-- The argument bundle the re-initialization block passes to
`initialize_chat_session` (lines 128-134).  At that point the three
stored fields have just been overwritten with the widget values (lines
112-114), so the bundle depends only on the current inputs. -/
def reinitConfig (inp : Inputs) : SessionConfig :=
  { api_key := inp.api_key_input
    model_name := inp.model_name_input
    system_instruction := systemInstructionArg inp.system_prompt_input
    temperature := inp.temperature
    max_output_tokens := inp.max_tokens }

/-- The module-level re-initialization block, lines 107-144.
`hasChatKey` is the Python test `"chat_session" in st.session_state`
(false only on the very first run); `initFn` is the external result of
`initialize_chat_session` for a given argument bundle (`none` = the
helper caught an exception and returned `None`).

If the condition fires, the three stored fields are overwritten with the
widget values; then, when the new api key is non-empty, a session is
created: on success it is stored and `messages` is cleared (lines
135-137), on failure `chat_session` becomes `None` and `messages` is NOT
touched (lines 139-140); with an empty api key `chat_session` is set to
`None` and `messages` is again untouched (lines 141-144). -/
def reinit (hasChatKey : Bool) (s : AppState) (inp : Inputs)
    (initFn : SessionConfig → Option Nat) : AppState :=
  if !hasChatKey || trackedChanged s inp then
    let s1 : AppState :=
      { s with
        api_key := inp.api_key_input
        model_name := inp.model_name_input
        system_prompt := inp.system_prompt_input }
    if s1.api_key ≠ "" then
      match initFn (reinitConfig inp) with
      | some h => { s1 with chat_session := some h, messages := [] }
      | none => { s1 with chat_session := none }
    else
      { s1 with chat_session := none }
  else s

/-- The `st.session_state` contents after the first-run key
initializations at lines 92-103 (stored fields take the widget values,
`messages` starts empty, the `chat_session` key does not exist yet). -/
def firstRunState (inp : Inputs) : AppState :=
  { api_key := inp.api_key_input
    model_name := inp.model_name_input
    system_prompt := inp.system_prompt_input
    messages := []
    chat_session := none }

/-- The Clear Chat History button handler, lines 84-87: empty the message
list and set `chat_session` to `None` (the key stays present). -/
def clearChatHistory (s : AppState) : AppState :=
  { s with messages := [], chat_session := none }

/-- Everything observable that one run of the chat-input handler does:
the final message list, the successive strings written to
`message_placeholder.markdown` (lines 179 and 185), the `st.error`
strings, the `st.warning` strings, and the prompts passed to
`send_message` (line 171). -/
structure HandlerOutput where
  messages : List Message
  displays : List String
  errors : List String
  warnings : List String
  sentPrompts : List String
deriving DecidableEq, Repr

/-- The for-loop over the response stream, lines 173-183.  Returns the
accumulated `full_response_content`, the markdown strings shown while
looping (each partial concatenation followed by the blinking-cursor
character, line 179), the warnings, and whether the loop exited by
`break` (malformed chunk, lines 180-183). -/
def consumeStream (acc : String) : List Chunk → String × List String × List String × Bool
  | [] => (acc, [], [], false)
  | Chunk.text s :: rest =>
    let r := consumeStream (acc ++ s) rest
    (r.1, (acc ++ s ++ "▌") :: r.2.1, r.2.2.1, r.2.2.2)
  | Chunk.malformed r :: _ =>
    (acc, [], ["Received an unexpected chunk: " ++ r], true)

/-- The assistant placeholder message content appended by the three
exception handlers (lines 192, 195, 198). -/
def placeholderText (e : GenError) : String :=
  match e.kind with
  | GenErrorKind.blockedPrompt =>
    "I\x27m sorry, I can\x27t respond to that due to safety guidelines. (Blocked Prompt: " ++ e.msg ++ ")"
  | GenErrorKind.stopCandidate =>
    "My apologies, my response was cut short. (Stop Candidate: " ++ e.msg ++ ")"
  | GenErrorKind.other =>
    "Sorry, an unexpected error occurred: " ++ e.msg

/-- The `st.error` text shown by the three exception handlers (lines 191,
194, 197). -/
def errorText (e : GenError) : String :=
  match e.kind with
  | GenErrorKind.blockedPrompt =>
    "⚠️ Your input was blocked by the safety filters: " ++ e.msg
  | GenErrorKind.stopCandidate =>
    "⚠️ My response was stopped before completion: " ++ e.msg
  | GenErrorKind.other =>
    "An error occurred: " ++ e.msg

/-- The chat-input handler, lines 153-198.  `user_prompt = ""` models a
run where `st.chat_input` returned a falsy value, so the walrus `if` at
line 153 skips the whole block.  Otherwise: empty stored api key →
`st.error` and return (lines 154-155); `chat_session` is `None` →
`st.error` and return (lines 156-157); else append the user message
(line 160), call `send_message`, run the streaming loop, and either
append the accumulated content (line 188; also after a malformed-chunk
`break`, since line 185/188 still run) or, when the iterator raised,
append the exception placeholder (lines 190-198).  On the raise path the
final `message_placeholder.markdown(full_response_content)` at line 185
is skipped. -/
def chatTurn (s : AppState) (user_prompt : String) (outcome : RemoteOutcome) :
    HandlerOutput :=
  if user_prompt = "" then
    { messages := s.messages, displays := [], errors := [], warnings := [], sentPrompts := [] }
  else if s.api_key = "" then
    { messages := s.messages, displays := []
      errors := ["⚠️ Please enter your Gemini API Key in the sidebar first!"]
      warnings := [], sentPrompts := [] }
  else if s.chat_session = none then
    { messages := s.messages, displays := []
      errors := ["⚠️ Chat session not initialized. Please check your API key and configuration in the sidebar."]
      warnings := [], sentPrompts := [] }
  else
    let ms1 := s.messages ++ [{ role := "user", content := user_prompt }]
    let r := consumeStream "" outcome.chunks
    let full := r.1
    let partials := r.2.1
    let warns := r.2.2.1
    let broke := r.2.2.2
    if broke then
      { messages := ms1 ++ [{ role := "assistant", content := full }]
        displays := partials ++ [full]
        errors := [], warnings := warns, sentPrompts := [user_prompt] }
    else
      match outcome.raisedAtEnd with
      | none =>
        { messages := ms1 ++ [{ role := "assistant", content := full }]
          displays := partials ++ [full]
          errors := [], warnings := warns, sentPrompts := [user_prompt] }
      | some e =>
        { messages := ms1 ++ [{ role := "assistant", content := placeholderText e }]
          displays := partials
          errors := [errorText e], warnings := warns, sentPrompts := [user_prompt] }

/-- The state after a chat turn: the handler only mutates
`st.session_state.messages`. -/
def applyChatTurn (s : AppState) (user_prompt : String) (outcome : RemoteOutcome) :
    AppState :=
  { s with messages := (chatTurn s user_prompt outcome).messages }

/-- Right-fold concatenation of a fragment list, the reference value
`f1 ++ f2 ++ ... ++ fn` used in the claims about the streaming loop. -/
def concatFragments : List String → String
  | [] => ""
  | s :: rest => s ++ concatFragments rest

/-- The successive partial concatenations `f1, f1++f2, ...` starting from
accumulator `acc`. -/
def runningConcats (acc : String) : List String → List String
  | [] => []
  | s :: rest => (acc ++ s) :: runningConcats (acc ++ s) rest

/-- The list of in-progress concatenations of a fragment list:
`[f1, f1 ++ f2, ..., f1 ++ ... ++ fn]`. -/
def concatStages : List String → List String
  | [] => []
  | f :: rest => f :: (concatStages rest).map (fun q => f ++ q)

/-- The content of the single assistant message a successful-precondition
chat turn appends: the accumulated stream content when the loop ended
normally or by `break`, and the exception placeholder when the iterator
raised. -/
def exchangeContent (outcome : RemoteOutcome) : String :=
  let r := consumeStream "" outcome.chunks
  if r.2.2.2 then r.1
  else
    match outcome.raisedAtEnd with
    | none => r.1
    | some e => placeholderText e

/-- A model identifier from the `available_models` table (line 58). -/
def flashModelId : String := "gemini-1.5-flash-latest"

/-- A concrete sidebar snapshot: non-empty api key, default model, empty
system prompt, default sliders (temperature 0.7, max tokens 2048). -/
def inpA : Inputs :=
  { api_key_input := "key-1", model_name_input := flashModelId
    system_prompt_input := "", temperature := mkRat 7 10, max_tokens := 2048 }

/-- The same snapshot with a different api key (a tracked field change). -/
def inpB : Inputs := { inpA with api_key_input := "key-2" }

/-- The same snapshot with only the temperature slider moved (an
untracked field change). -/
def inpTemp : Inputs := { inpA with temperature := mkRat 1 5 }

/-- An external world in which `initialize_chat_session` always succeeds,
returning handle 0. -/
def fSome : SessionConfig → Option Nat := fun _ => some 0

/-- An external world in which `initialize_chat_session` always fails
(catches an exception and returns `None`, lines 34-36). -/
def fNone : SessionConfig → Option Nat := fun _ => none

/-- The state after the very first script run with inputs `inpA` and a
successful session creation: key `"key-1"` stored, live session, empty
transcript. -/
def sReady : AppState := reinit false (firstRunState inpA) inpA fSome

/-- The state after one successful exchange on `sReady`: the transcript
holds a user message and an assistant reply. -/
def sChat : AppState :=
  applyChatTurn sReady "hi" { chunks := [Chunk.text "Hello!"], raisedAtEnd := none }

/-- The state reached from `sChat` when the user changes the api key to
`"key-2"` and the new session creation fails. -/
def sFail : AppState := reinit true sChat inpB fNone

/-- The state right after pressing Clear Chat History in `sChat`. -/
def sCleared : AppState := clearChatHistory sChat

/-! Helper lemmas about string concatenation and the streaming loop. -/

theorem strAppend_assoc (a b c : String) : a ++ b ++ c = a ++ (b ++ c) :=
  String.ext (by simp [String.data_append, List.append_assoc])

theorem strEmpty_append (a : String) : "" ++ a = a :=
  String.ext (by simp [String.data_append])

/-- On a stream of well-formed text chunks the loop never breaks, returns
the accumulator followed by all fragments, shows every partial
concatenation with the cursor suffix, and emits no warning. -/
theorem consumeStream_texts (ts : List String) (acc : String) :
    consumeStream acc (ts.map Chunk.text) =
      (acc ++ concatFragments ts,
       (runningConcats acc ts).map (fun p => p ++ "▌"), [], false) := by
  induction ts generalizing acc with
  | nil => simp [consumeStream, concatFragments, runningConcats]
  | cons t rest ih =>
    simp only [List.map_cons, consumeStream, ih (acc ++ t), concatFragments,
      runningConcats, List.map_cons, strAppend_assoc]

/-- On a stream whose well-formed text chunks are followed by a malformed
chunk, the loop breaks there: everything after the malformed chunk is
ignored, the accumulated content is what the text chunks built, and one
warning is emitted. -/
theorem consumeStream_malformed (ts : List String) (r : String) (rest : List Chunk)
    (acc : String) :
    consumeStream acc (ts.map Chunk.text ++ Chunk.malformed r :: rest) =
      (acc ++ concatFragments ts,
       (runningConcats acc ts).map (fun p => p ++ "▌"),
       ["Received an unexpected chunk: " ++ r], true) := by
  induction ts generalizing acc with
  | nil => simp [consumeStream, concatFragments, runningConcats]
  | cons t ts ih =>
    simp only [List.map_cons, List.cons_append, consumeStream, List.append_eq,
      ih (acc ++ t), concatFragments, runningConcats, List.map_cons, strAppend_assoc]

theorem runningConcats_eq_map (acc : String) (ts : List String) :
    runningConcats acc ts = (concatStages ts).map (fun q => acc ++ q) := by
  induction ts generalizing acc with
  | nil => simp [runningConcats, concatStages]
  | cons t rest ih =>
    simp only [runningConcats, concatStages, ih (acc ++ t), List.map_cons,
      List.map_map]
    congr 1
    apply List.map_congr_left
    intro q _
    simp [Function.comp, strAppend_assoc]

theorem runningConcats_empty_acc (ts : List String) :
    runningConcats "" ts = concatStages ts := by
  rw [runningConcats_eq_map]
  conv_rhs => rw [← List.map_id (concatStages ts)]
  apply List.map_congr_left
  intro q _
  simp [strEmpty_append]

/-- Whenever the three preconditions of the chat-input handler pass, the
message list grows by exactly the user entry followed by exactly one
assistant entry, in every outcome path. -/
theorem chatTurn_messages_eq (s : AppState) (p : String) (outcome : RemoteOutcome)
    (hp : p ≠ "") (hk : s.api_key ≠ "") (hs : s.chat_session ≠ none) :
    (chatTurn s p outcome).messages =
      s.messages ++ [{ role := "user", content := p },
                     { role := "assistant", content := exchangeContent outcome }] := by
  cases hb : (consumeStream "" outcome.chunks).2.2.2 with
  | false =>
    cases ht : outcome.raisedAtEnd with
    | none => simp [chatTurn, exchangeContent, hp, hk, hs, hb, ht]
    | some e => simp [chatTurn, exchangeContent, hp, hk, hs, hb, ht]
  | true => simp [chatTurn, exchangeContent, hp, hk, hs, hb]

/-! Claim theorems: Session Manager (re-initialization block, clear button). -/

/-- C1 counterexample: the claim says that whenever a tracked field
differs, a new Session is created and the Transcript becomes empty.  In
the reachable state `sChat` (live session, two transcript entries),
changing the api key to `"key-2"` while the external session creation
fails leaves the transcript non-empty and produces no new session, so
the claim as stated is false at this input. -/
theorem C1_counterexample :
    trackedChanged sChat inpB = true ∧
    (reinit true sChat inpB fNone).chat_session = none ∧
    (reinit true sChat inpB fNone).messages ≠ [] := by decide

/-- C1 (amended): on an interaction cycle with the session slot present,
the Session Manager rebinds exactly when a tracked field (api_key,
model_id, persona) differs: if none differs the state is returned
unchanged (resubmission is a no-op); if some field differs the existing
Session is discarded and, when the new api key is non-empty and creation
succeeds, the new Session is stored and the Transcript becomes empty,
while on an empty api key or a failed creation the Session is unset and
the Transcript is left untouched. -/
theorem C1_rebind_on_tracked_change (s : AppState) (inp : Inputs)
    (f : SessionConfig → Option Nat) :
    (trackedChanged s inp = false → reinit true s inp f = s) ∧
    (trackedChanged s inp = true →
      (inp.api_key_input = "" →
        (reinit true s inp f).chat_session = none ∧
        (reinit true s inp f).messages = s.messages) ∧
      (inp.api_key_input ≠ "" →
        (∀ h, f (reinitConfig inp) = some h →
          (reinit true s inp f).chat_session = some h ∧
          (reinit true s inp f).messages = []) ∧
        (f (reinitConfig inp) = none →
          (reinit true s inp f).chat_session = none ∧
          (reinit true s inp f).messages = s.messages))) := by
  constructor
  · intro hc
    simp [reinit, hc]
  · intro hc
    constructor
    · intro hk
      simp [reinit, hc, hk]
    · intro hk
      constructor
      · intro h hf
        simp [reinit, hc, hk, hf]
      · intro hf
        simp [reinit, hc, hk, hf]

/-- C1 witness: resubmitting the unchanged configuration `inpA` in the
reachable state `sChat` leaves the state (session and transcript)
untouched. -/
theorem C1_rebind_witness : reinit true sChat inpA fSome = sChat :=
  (C1_rebind_on_tracked_change sChat inpA fSome).1 (by decide)

/-- C3 counterexample: the claim says that after a configuration change
whose session creation fails, the Transcript remains cleared (and that a
non-empty Transcript implies a live Session).  In the reachable state
`sChat`, changing the api key with a failing creation leaves the old
two-entry transcript in place with no session at all. -/
theorem C3_counterexample :
    sFail = reinit true sChat inpB fNone ∧
    sFail.chat_session = none ∧
    sFail.messages = sChat.messages ∧
    sFail.messages ≠ [] := by decide

/-- C3 (amended): on a configuration change, Transcript and Session are
reset together only when the new session creation succeeds; when the new
api key is empty or creation fails, the Session is unset while the
Transcript keeps its previous contents, so a non-empty Transcript can
coexist with an absent Session. -/
theorem C3_reset_only_on_success (s : AppState) (inp : Inputs)
    (f : SessionConfig → Option Nat) (hc : trackedChanged s inp = true) :
    (∀ h, inp.api_key_input ≠ "" → f (reinitConfig inp) = some h →
      (reinit true s inp f).chat_session = some h ∧
      (reinit true s inp f).messages = []) ∧
    ((inp.api_key_input = "" ∨ f (reinitConfig inp) = none) →
      (reinit true s inp f).chat_session = none ∧
      (reinit true s inp f).messages = s.messages) := by
  constructor
  · intro h hk hf
    simp [reinit, hc, hk, hf]
  · intro hfail
    rcases hfail with hk | hf
    · simp [reinit, hc, hk]
    · by_cases hk : inp.api_key_input = ""
      · simp [reinit, hc, hk]
      · simp [reinit, hc, hk, hf]

/-- C3 witness: instantiating the amended claim on the concrete failing
rebind from `sChat`. -/
theorem C3_reset_witness :
    (reinit true sChat inpB fNone).chat_session = none ∧
    (reinit true sChat inpB fNone).messages = sChat.messages :=
  (C3_reset_only_on_success sChat inpB fNone (by decide)).2 (Or.inr rfl)

/-- C5: pressing Clear Chat History does empty the Transcript and discard
the Session, but the claimed lazy re-creation on the next send never
happens: on the following rerun the re-initialization condition is false
(the `chat_session` key still exists and no tracked field changed), so
even with an external world in which creation would succeed the session
stays `None`, and the next send is rejected with the
"Chat session not initialized" error while the transcript stays empty.
This contradicts the intent stated in the code comment at line 86
("Will be re-initialized"). -/
theorem C5_clear_no_lazy_recreate :
    sCleared.messages = [] ∧
    sCleared.chat_session = none ∧
    reinit true sCleared inpA fSome = sCleared ∧
    (chatTurn sCleared "hello"
        { chunks := [Chunk.text "x"], raisedAtEnd := none }).messages = [] ∧
    (chatTurn sCleared "hello"
        { chunks := [Chunk.text "x"], raisedAtEnd := none }).sentPrompts = [] ∧
    (chatTurn sCleared "hello"
        { chunks := [Chunk.text "x"], raisedAtEnd := none }).errors =
      ["⚠️ Chat session not initialized. Please check your API key and configuration in the sidebar."] := by
  decide

/-- C9 counterexample: the claim says any configuration field change,
including temperature, invalidates the current Session.  Moving only the
temperature slider (0.7 → 0.2) in the live state `sReady` leaves the
whole state, session included, unchanged. -/
theorem C9_counterexample :
    inpTemp.temperature ≠ inpA.temperature ∧
    sReady.chat_session = some 0 ∧
    reinit true sReady inpTemp fNone = sReady := by decide

/-- C9 (amended): only the three tracked fields (api_key, model_id,
persona) are compared; when they all match the stored configuration, the
re-initialization block is a no-op regardless of the temperature and
max_output_tokens inputs, so changes to the sampling parameters alone do
not invalidate the current Session. -/
theorem C9_untracked_changes_keep_session (s : AppState) (inp : Inputs)
    (f : SessionConfig → Option Nat)
    (hk : s.api_key = inp.api_key_input)
    (hm : s.model_name = inp.model_name_input)
    (hp : s.system_prompt = inp.system_prompt_input) :
    reinit true s inp f = s := by
  have hc : trackedChanged s inp = false := by
    simp [trackedChanged, hk, hm, hp]
  simp [reinit, hc]

/-- C9 witness: the temperature-only change applied to `sReady` under a
succeeding external world still leaves the state untouched. -/
theorem C9_untracked_witness : reinit true sReady inpTemp fSome = sReady :=
  C9_untracked_changes_keep_session sReady inpTemp fSome (by decide) (by decide)
    (by decide)

/-! Claim theorems: Message Exchange Loop (chat-input handler). -/

theorem strAppend_empty (a : String) : a ++ "" = a :=
  String.ext (by simp [String.data_append])

/-- C2: when the preconditions pass and the remote stream yields text
fragments `f1..fn` and then terminates normally, the handler appends one
user entry and exactly one assistant entry whose content is
`f1 ++ ... ++ fn` in arrival order, and the placeholder shows every
in-progress concatenation in order (each prefix with the cursor glyph,
then the final content). -/
theorem C2_streaming_concat (s : AppState) (p : String) (ts : List String)
    (hp : p ≠ "") (hk : s.api_key ≠ "") (hs : s.chat_session ≠ none) :
    chatTurn s p { chunks := ts.map Chunk.text, raisedAtEnd := none } =
      { messages := s.messages ++
          [{ role := "user", content := p },
           { role := "assistant", content := concatFragments ts }]
        displays :=
          (concatStages ts).map (fun q => q ++ "▌") ++ [concatFragments ts]
        errors := [], warnings := [], sentPrompts := [p] } := by
  simp [chatTurn, hp, hk, hs, consumeStream_texts, strEmpty_append,
    runningConcats_empty_acc]

/-- C2 witness: the spec example, fragments `["Hel", "lo", " there"]` in
the live state `sReady`: the assistant entry reads `"Hello there"` and
the observed placeholder states are `"Hel"`, `"Hello"`, `"Hello there"`
in that order (each shown with the cursor glyph while streaming). -/
theorem C2_streaming_concat_witness :
    chatTurn sReady "hi"
        { chunks := ["Hel", "lo", " there"].map Chunk.text, raisedAtEnd := none } =
      { messages := [{ role := "user", content := "hi" },
                     { role := "assistant", content := "Hello there" }]
        displays := ["Hel▌", "Hello▌", "Hello there▌", "Hello there"]
        errors := [], warnings := [], sentPrompts := ["hi"] } :=
  (C2_streaming_concat sReady "hi" ["Hel", "lo", " there"] (by decide) (by decide)
      (by decide)).trans (by decide)

/-- C4: when the preconditions pass and the remote call raises any of the
three failure kinds (after zero or more well-formed fragments), no
exception escapes: the handler appends exactly one assistant placeholder
whose content embeds the raised error description, surfaces exactly one
error, and `send_message` was called exactly once (no retry). -/
theorem C4_failure_placeholder (s : AppState) (p : String) (ts : List String)
    (e : GenError) (hp : p ≠ "") (hk : s.api_key ≠ "") (hs : s.chat_session ≠ none) :
    chatTurn s p { chunks := ts.map Chunk.text, raisedAtEnd := some e } =
      { messages := s.messages ++
          [{ role := "user", content := p },
           { role := "assistant", content := placeholderText e }]
        displays := (concatStages ts).map (fun q => q ++ "▌")
        errors := [errorText e], warnings := [], sentPrompts := [p] } ∧
    ∃ a b, placeholderText e = a ++ e.msg ++ b := by
  constructor
  · simp [chatTurn, hp, hk, hs, consumeStream_texts, runningConcats_empty_acc]
  · cases e with
    | mk kind msg =>
      cases kind with
      | blockedPrompt =>
        exact ⟨"I\x27m sorry, I can\x27t respond to that due to safety guidelines. (Blocked Prompt: ",
          ")", rfl⟩
      | stopCandidate =>
        exact ⟨"My apologies, my response was cut short. (Stop Candidate: ", ")", rfl⟩
      | other =>
        exact ⟨"Sorry, an unexpected error occurred: ", "",
          by simp [placeholderText, strAppend_empty]⟩

/-- C4 witness: a blocked-content failure with detail `"policy X"` in the
live state `sReady` yields the user entry plus one assistant placeholder
mentioning `"policy X"`, one surfaced error, and a single remote call. -/
theorem C4_failure_witness :
    chatTurn sReady "hi"
        { chunks := ([] : List String).map Chunk.text,
          raisedAtEnd := some { kind := GenErrorKind.blockedPrompt, msg := "policy X" } } =
      { messages := [{ role := "user", content := "hi" },
                     { role := "assistant", content :=
                       "I\x27m sorry, I can\x27t respond to that due to safety guidelines. (Blocked Prompt: policy X)" }]
        displays := []
        errors := ["⚠️ Your input was blocked by the safety filters: policy X"]
        warnings := [], sentPrompts := ["hi"] } :=
  ((C4_failure_placeholder sReady "hi" []
      { kind := GenErrorKind.blockedPrompt, msg := "policy X" }
      (by decide) (by decide) (by decide)).1).trans (by decide)

/-- C6: once the preconditions pass, the user message is appended right
after the previous transcript and stays there in every outcome path: the
first `|transcript| + 1` entries of the result are always the old
transcript followed by the user entry, whatever the remote outcome
(success, malformed chunk or any raised failure). -/
theorem C6_user_message_unconditional (s : AppState) (p : String)
    (outcome : RemoteOutcome)
    (hp : p ≠ "") (hk : s.api_key ≠ "") (hs : s.chat_session ≠ none) :
    (chatTurn s p outcome).messages.take (s.messages.length + 1) =
      s.messages ++ [{ role := "user", content := p }] := by
  rw [chatTurn_messages_eq s p outcome hp hk hs]
  have hsplit :
      s.messages ++ [{ role := "user", content := p },
                     { role := "assistant", content := exchangeContent outcome }] =
        (s.messages ++ [{ role := "user", content := p }]) ++
          [{ role := "assistant", content := exchangeContent outcome }] := by
    simp
  rw [hsplit]
  have hl : s.messages.length + 1 =
      (s.messages ++ [({ role := "user", content := p } : Message)]).length := by
    simp
  rw [hl, List.take_left]

/-- C6 witness: even when the remote call raises a generic error
immediately, the user entry `"hi"` is present right after the (empty)
previous transcript. -/
theorem C6_user_message_witness :
    (chatTurn sReady "hi"
        { chunks := [],
          raisedAtEnd := some { kind := GenErrorKind.other, msg := "boom" } }).messages.take
        (sReady.messages.length + 1) =
      sReady.messages ++ [{ role := "user", content := "hi" }] :=
  C6_user_message_unconditional sReady "hi"
    { chunks := [], raisedAtEnd := some { kind := GenErrorKind.other, msg := "boom" } }
    (by decide) (by decide) (by decide)

/-- C7: when the stream yields well-formed fragments and then a malformed
chunk, the loop stops there — the result does not depend on anything after
the malformed chunk, not even on a pending exception — surfaces exactly
one warning and no error, and appends one assistant entry whose content
is exactly the concatenation accumulated before the malformed chunk. -/
theorem C7_malformed_stops_early (s : AppState) (p : String) (ts : List String)
    (r : String) (rest : List Chunk) (term : Option GenError)
    (hp : p ≠ "") (hk : s.api_key ≠ "") (hs : s.chat_session ≠ none) :
    chatTurn s p
        { chunks := ts.map Chunk.text ++ Chunk.malformed r :: rest,
          raisedAtEnd := term } =
      { messages := s.messages ++
          [{ role := "user", content := p },
           { role := "assistant", content := concatFragments ts }]
        displays :=
          (concatStages ts).map (fun q => q ++ "▌") ++ [concatFragments ts]
        errors := []
        warnings := ["Received an unexpected chunk: " ++ r]
        sentPrompts := [p] } := by
  simp [chatTurn, hp, hk, hs, consumeStream_malformed, strEmpty_append,
    runningConcats_empty_acc]

/-- C7 witness: fragment `"par"` followed by a malformed chunk and one
more never-consumed fragment: the assistant entry keeps the partial
content `"par"`, one warning is surfaced and no error. -/
theorem C7_malformed_witness :
    chatTurn sReady "hi"
        { chunks := ["par"].map Chunk.text ++ Chunk.malformed "BLOCK" :: [Chunk.text "later"],
          raisedAtEnd := none } =
      { messages := [{ role := "user", content := "hi" },
                     { role := "assistant", content := "par" }]
        displays := ["par▌", "par"]
        errors := []
        warnings := ["Received an unexpected chunk: BLOCK"]
        sentPrompts := ["hi"] } :=
  (C7_malformed_stops_early sReady "hi" ["par"] "BLOCK" [Chunk.text "later"] none
      (by decide) (by decide) (by decide)).trans (by decide)

/-- C8: a non-empty submission with an empty stored api key or with no
live session is rejected up front: an error is surfaced, the transcript
is left exactly as it was, and `send_message` is never called. -/
theorem C8_not_ready (s : AppState) (p : String) (outcome : RemoteOutcome)
    (hp : p ≠ "") (h : s.api_key = "" ∨ s.chat_session = none) :
    (chatTurn s p outcome).messages = s.messages ∧
    (chatTurn s p outcome).errors ≠ [] ∧
    (chatTurn s p outcome).sentPrompts = [] := by
  rcases h with h | h
  · simp [chatTurn, hp, h]
  · by_cases hk : s.api_key = ""
    · simp [chatTurn, hp, hk]
    · simp [chatTurn, hp, hk, h]

/-- C8 witness: sending `"ping"` in the cleared state (api key stored but
session `None`) leaves the transcript unchanged, surfaces an error and
performs no remote call. -/
theorem C8_not_ready_witness :
    (chatTurn sCleared "ping" { chunks := [Chunk.text "x"], raisedAtEnd := none }).messages =
      sCleared.messages ∧
    (chatTurn sCleared "ping" { chunks := [Chunk.text "x"], raisedAtEnd := none }).errors ≠ [] ∧
    (chatTurn sCleared "ping" { chunks := [Chunk.text "x"], raisedAtEnd := none }).sentPrompts = [] :=
  C8_not_ready sCleared "ping" { chunks := [Chunk.text "x"], raisedAtEnd := none }
    (by decide) (Or.inr (by decide))

/-- C10: every send that passes the preconditions appends exactly two
entries in every outcome path — first the user entry, then one assistant
entry — and nothing else; when the stream ends normally with no fragment,
or its very first chunk is malformed, the assistant content is the empty
string. -/
theorem C10_exactly_two_entries (s : AppState) (p : String) (outcome : RemoteOutcome)
    (hp : p ≠ "") (hk : s.api_key ≠ "") (hs : s.chat_session ≠ none) :
    (chatTurn s p outcome).messages =
      s.messages ++ [{ role := "user", content := p },
                     { role := "assistant", content := exchangeContent outcome }] ∧
    ((outcome.chunks = [] ∧ outcome.raisedAtEnd = none) →
      exchangeContent outcome = "") ∧
    (∀ r rest, outcome.chunks = Chunk.malformed r :: rest →
      exchangeContent outcome = "") := by
  refine ⟨chatTurn_messages_eq s p outcome hp hk hs, ?_, ?_⟩
  · rintro ⟨h1, h2⟩
    simp [exchangeContent, h1, h2, consumeStream]
  · intro r rest h
    simp [exchangeContent, h, consumeStream]

/-- C10 witness: a stream that terminates normally before any fragment
appends exactly the user entry and an assistant entry with empty
content. -/
theorem C10_two_entries_witness :
    (chatTurn sReady "hi" { chunks := [], raisedAtEnd := none }).messages =
      sReady.messages ++
        [{ role := "user", content := "hi" },
         { role := "assistant",
           content := exchangeContent { chunks := [], raisedAtEnd := none } }] ∧
    exchangeContent { chunks := [], raisedAtEnd := none } = "" := by
  have h := C10_exactly_two_entries sReady "hi" { chunks := [], raisedAtEnd := none }
    (by decide) (by decide) (by decide)
  exact ⟨h.1, h.2.1 ⟨rfl, rfl⟩⟩
